import Mathlib

/-!
# Verification of the block-production analytics library

A shallow embedding of the library's data model and operations, translated
from the Rust sources (`src/types.rs`, `src/client.rs`, `src/error.rs`,
`src/config.rs`), together with theorems settling the specification claims.

Numeric model: the source computes rates and scores in `f64`; the embedding
uses `ℚ` (exact rational arithmetic).  Every concrete value appearing in the
claims (integer-valued percentages, small decimal bucket bounds) is exactly
representable in both models, and all claim-relevant comparisons are between
such values, so the abstraction is faithful for the properties proved here.
Machine integers (`u64`, `usize`) are modelled as `ℕ`; Rust's
`saturating_sub` and unsigned `-` are `ℕ` truncated subtraction.
`Duration` values are modelled as whole seconds (`ℕ`); every duration
constant in the claims is a whole number of seconds.
-/

namespace BlocksProduction

/-- `SlotRange` from `src/types.rs`. -/
structure SlotRange where
  first_slot : ℕ
  last_slot : ℕ
deriving Repr, DecidableEq

/-- `SlotRange::slot_count` (`last_slot.saturating_sub(first_slot)`). -/
def SlotRange.slot_count (r : SlotRange) : ℕ :=
  r.last_slot - r.first_slot

/-- `ValidatorSkipRate` from `src/types.rs`. -/
structure ValidatorSkipRate where
  pubkey : String
  leader_slots : ℕ
  blocks_produced : ℕ
  missed_slots : ℕ
  skip_rate_percent : ℚ
deriving Repr, DecidableEq

namespace ValidatorSkipRate

/-- `ValidatorSkipRate::new`: `missed_slots = leader_slots.saturating_sub(blocks_produced)`;
`skip_rate_percent = (missed as f64 / leader as f64) * 100` when `leader_slots > 0`, else `0`. -/
def new (pubkey : String) (leader_slots blocks_produced : ℕ) : ValidatorSkipRate :=
  let missed_slots := leader_slots - blocks_produced
  let skip_rate_percent : ℚ :=
    if 0 < leader_slots then ((missed_slots : ℚ) / (leader_slots : ℚ)) * 100 else 0
  ⟨pubkey, leader_slots, blocks_produced, missed_slots, skip_rate_percent⟩

/-- `is_perfect`: `skip_rate_percent == 0.0 && leader_slots > 0`. -/
def is_perfect (v : ValidatorSkipRate) : Bool :=
  decide (v.skip_rate_percent = 0 ∧ 0 < v.leader_slots)

/-- `is_concerning`: `skip_rate_percent > 5.0`. -/
def is_concerning (v : ValidatorSkipRate) : Bool :=
  decide (5 < v.skip_rate_percent)

/-- `is_significant`: `leader_slots >= 50`. -/
def is_significant (v : ValidatorSkipRate) : Bool :=
  decide (50 ≤ v.leader_slots)

/-- `is_high_stake`: `leader_slots > 1000`. -/
def is_high_stake (v : ValidatorSkipRate) : Bool :=
  decide (1000 < v.leader_slots)

/-- `is_low_activity`: `leader_slots < 10`. -/
def is_low_activity (v : ValidatorSkipRate) : Bool :=
  decide (v.leader_slots < 10)

/-- `is_offline`: `skip_rate_percent >= 100.0`. -/
def is_offline (v : ValidatorSkipRate) : Bool :=
  decide (100 ≤ v.skip_rate_percent)

/-- `significance_weight`: `0` if `leader_slots == 0`, `0.1` if `leader_slots < 50`, else
`ln(leader_slots)/10`.  The natural logarithm is transcendental and has no computable
rational value, so the `ln(n)/10` branch is abstracted by the parameter `w`; all
theorems below hold for every choice of `w`. -/
def significance_weight (w : ℕ → ℚ) (v : ValidatorSkipRate) : ℚ :=
  if v.leader_slots = 0 then 0
  else if v.leader_slots < 50 then 1/10
  else w v.leader_slots

end ValidatorSkipRate

/-- `ValidatorPerformanceCategory` from `src/types.rs`. -/
inductive ValidatorPerformanceCategory where
  | Perfect
  | Excellent
  | Good
  | Average
  | Concerning
  | Poor
  | Critical
  | Offline
  | Insufficient
deriving Repr, DecidableEq

/-- `ValidatorPerformanceCategory::from_skip_rate`. -/
def ValidatorPerformanceCategory.from_skip_rate (skip_rate : ℚ) (leader_slots : ℕ) :
    ValidatorPerformanceCategory :=
  if leader_slots < 10 then .Insufficient
  else if 100 ≤ skip_rate then .Offline
  else if 25 ≤ skip_rate then .Critical
  else if 10 ≤ skip_rate then .Poor
  else if 5 ≤ skip_rate then .Concerning
  else if 3 ≤ skip_rate then .Average
  else if 1 ≤ skip_rate then .Good
  else if 0 < skip_rate then .Excellent
  else .Perfect

/-! ## Stable sorting

Rust's `Vec::sort_by` is a stable sort; the comparators in the source all
compare `skip_rate_percent` via `partial_cmp` (never `None` here, as rates are
real numbers).  A stable sort is modelled by structural insertion sort: an
element is inserted in front of the first element it is `≤`-below-or-equal,
which keeps the original relative order of equal keys. -/

def insertLe {α : Type} (le : α → α → Bool) (a : α) : List α → List α
  | [] => [a]
  | b :: t => if le a b then a :: b :: t else b :: insertLe le a t

def sortLe {α : Type} (le : α → α → Bool) : List α → List α
  | [] => []
  | a :: t => insertLe le a (sortLe le t)

/-- `validators.sort_by(|a, b| a.skip_rate_percent.partial_cmp(&b.skip_rate_percent)...)`. -/
def sortValidatorsBySkipRate (l : List ValidatorSkipRate) : List ValidatorSkipRate :=
  sortLe (fun a b => decide (a.skip_rate_percent ≤ b.skip_rate_percent)) l

/-- `sorted_rates.sort_by(|a, b| a.partial_cmp(b).unwrap())`. -/
def sortRates (l : List ℚ) : List ℚ :=
  sortLe (fun a b => decide (a ≤ b)) l

/-! ## Statistics (`BlockProductionClient::calculate_statistics`)

The intermediate quantities of `calculate_statistics` are given named
definitions mirroring its local variables. -/

open ValidatorSkipRate in
/-- The list of significant validators (`>= 50` slots). -/
def significantOf (l : List ValidatorSkipRate) : List ValidatorSkipRate :=
  l.filter is_significant

open ValidatorSkipRate in
/-- The list of high-stake validators (`> 1000` slots). -/
def highStakeOf (l : List ValidatorSkipRate) : List ValidatorSkipRate :=
  l.filter is_high_stake

open ValidatorSkipRate in
/-- The list of concerning validators (rate `> 5`). -/
def concerningOf (l : List ValidatorSkipRate) : List ValidatorSkipRate :=
  l.filter is_concerning

def totalLeaderSlots (l : List ValidatorSkipRate) : ℕ :=
  (l.map (fun v => v.leader_slots)).sum

def totalBlocksProduced (l : List ValidatorSkipRate) : ℕ :=
  (l.map (fun v => v.blocks_produced)).sum

def totalMissedSlots (l : List ValidatorSkipRate) : ℕ :=
  (l.map (fun v => v.missed_slots)).sum

/-- `overall_skip_rate_percent = 100 * total_missed / total_slots` (0 if no slots). -/
def overallSkipRate (l : List ValidatorSkipRate) : ℚ :=
  if 0 < totalLeaderSlots l then
    ((totalMissedSlots l : ℚ) / (totalLeaderSlots l : ℚ)) * 100
  else 0

/-- `network_efficiency_percent = 100 * total_produced / total_slots` (0 if no slots). -/
def networkEfficiency (l : List ValidatorSkipRate) : ℚ :=
  if 0 < totalLeaderSlots l then
    ((totalBlocksProduced l : ℚ) / (totalLeaderSlots l : ℚ)) * 100
  else 0

open ValidatorSkipRate in
def weightedSkipSum (w : ℕ → ℚ) (l : List ValidatorSkipRate) : ℚ :=
  ((significantOf l).map (fun v => v.skip_rate_percent * significance_weight w v)).sum

open ValidatorSkipRate in
def totalWeight (w : ℕ → ℚ) (l : List ValidatorSkipRate) : ℚ :=
  ((significantOf l).map (significance_weight w)).sum

/-- `weighted_skip_rate_percent = weighted_skip_sum / total_weight` (0 if weight 0). -/
def weightedSkipRate (w : ℕ → ℚ) (l : List ValidatorSkipRate) : ℚ :=
  if 0 < totalWeight w l then weightedSkipSum w l / totalWeight w l else 0

/-- Skip rate of the significant subset (`significant_total_missed / significant_total_slots`). -/
def significantValidatorsSkipRate (l : List ValidatorSkipRate) : ℚ :=
  if 0 < totalLeaderSlots (significantOf l) then
    ((totalMissedSlots (significantOf l) : ℚ) / (totalLeaderSlots (significantOf l) : ℚ)) * 100
  else 0

/-- `weighted_network_efficiency_percent` over the significant subset. -/
def weightedNetworkEfficiency (l : List ValidatorSkipRate) : ℚ :=
  if 0 < totalLeaderSlots (significantOf l) then
    ((totalBlocksProduced (significantOf l) : ℚ) / (totalLeaderSlots (significantOf l) : ℚ)) * 100
  else 0

/-- `high_stake_skip_rate_percent` over the high-stake subset. -/
def highStakeSkipRate (l : List ValidatorSkipRate) : ℚ :=
  if 0 < totalLeaderSlots (highStakeOf l) then
    ((totalMissedSlots (highStakeOf l) : ℚ) / (totalLeaderSlots (highStakeOf l) : ℚ)) * 100
  else 0

def skipRates (l : List ValidatorSkipRate) : List ℚ :=
  l.map (fun v => v.skip_rate_percent)

/-- `average_skip_rate_percent`: mean of per-validator rates (0 on empty). -/
def averageSkipRate (l : List ValidatorSkipRate) : ℚ :=
  if (skipRates l).isEmpty then 0
  else (skipRates l).sum / ((skipRates l).length : ℚ)

/-- The ascending-sorted per-validator rates. -/
def sortedRates (l : List ValidatorSkipRate) : List ℚ :=
  sortRates (skipRates l)

/-- `median_skip_rate_percent`: average of the middle two on even length. -/
def medianSkipRate (l : List ValidatorSkipRate) : ℚ :=
  let sr := sortedRates l
  if sr.isEmpty then 0
  else if sr.length % 2 = 0 then
    (sr.getD (sr.length / 2 - 1) 0 + sr.getD (sr.length / 2) 0) / 2
  else sr.getD (sr.length / 2) 0

/-- `BlockProductionClient::calculate_percentile`: value at index
`((len - 1) * percentile) as usize` of the ascending-sorted sample, clamped;
`0.0` on an empty sample.  The `as usize` cast truncates a non-negative `f64`
toward zero, i.e. takes the floor. -/
def calculate_percentile (sorted_values : List ℚ) (percentile : ℚ) : ℚ :=
  if sorted_values.isEmpty then 0
  else
    let index := (((sorted_values.length : ℚ) - 1) * percentile).floor.toNat
    sorted_values.getD (min index (sorted_values.length - 1)) 0

/-- `SkipRateStatistics` from `src/types.rs`. -/
structure SkipRateStatistics where
  total_validators : ℕ
  total_leader_slots : ℕ
  total_blocks_produced : ℕ
  total_missed_slots : ℕ
  overall_skip_rate_percent : ℚ
  average_skip_rate_percent : ℚ
  median_skip_rate_percent : ℚ
  weighted_skip_rate_percent : ℚ
  significant_validators_skip_rate_percent : ℚ
  high_stake_skip_rate_percent : ℚ
  perfect_validators : ℕ
  concerning_validators : ℕ
  offline_validators : ℕ
  low_activity_validators : ℕ
  high_activity_validators : ℕ
  significant_validators : ℕ
  skip_rate_90th_percentile : ℚ
  skip_rate_95th_percentile : ℚ
  significant_skip_rate_90th_percentile : ℚ
  significant_skip_rate_95th_percentile : ℚ
  network_efficiency_percent : ℚ
  weighted_network_efficiency_percent : ℚ
deriving Repr, DecidableEq

open ValidatorSkipRate in
/-- `BlockProductionClient::calculate_statistics`, with the `ln`-based weight
abstracted by `w` (see `ValidatorSkipRate.significance_weight`). -/
def calculate_statistics (w : ℕ → ℚ) (validators : List ValidatorSkipRate) :
    SkipRateStatistics where
  total_validators := validators.length
  total_leader_slots := totalLeaderSlots validators
  total_blocks_produced := totalBlocksProduced validators
  total_missed_slots := totalMissedSlots validators
  overall_skip_rate_percent := overallSkipRate validators
  average_skip_rate_percent := averageSkipRate validators
  median_skip_rate_percent := medianSkipRate validators
  weighted_skip_rate_percent := weightedSkipRate w validators
  significant_validators_skip_rate_percent := significantValidatorsSkipRate validators
  high_stake_skip_rate_percent := highStakeSkipRate validators
  perfect_validators := validators.countP is_perfect
  concerning_validators := validators.countP is_concerning
  offline_validators := validators.countP is_offline
  low_activity_validators := validators.countP is_low_activity
  high_activity_validators := validators.countP is_high_stake
  significant_validators := (significantOf validators).length
  skip_rate_90th_percentile := calculate_percentile (sortedRates validators) (90/100)
  skip_rate_95th_percentile := calculate_percentile (sortedRates validators) (95/100)
  significant_skip_rate_90th_percentile :=
    calculate_percentile (sortedRates (significantOf validators)) (90/100)
  significant_skip_rate_95th_percentile :=
    calculate_percentile (sortedRates (significantOf validators)) (95/100)
  network_efficiency_percent := networkEfficiency validators
  weighted_network_efficiency_percent := weightedNetworkEfficiency validators

/-! ## Distribution (`BlockProductionClient::calculate_distribution`) -/

/-- `DistributionBucket` from `src/types.rs`. -/
structure DistributionBucket where
  range_label : String
  min_percent : ℚ
  max_percent : ℚ
  validator_count : ℕ
  percentage_of_total : ℚ
  total_slots : ℕ
deriving Repr, DecidableEq

/-- `PercentileData` from `src/types.rs`. -/
structure PercentileData where
  percentile : ℕ
  skip_rate_percent : ℚ
deriving Repr, DecidableEq

/-- `DistributionPlotData` from `src/types.rs`. -/
structure DistributionPlotData where
  histogram_labels : List String
  histogram_values : List ℕ
  percentile_x : List ℕ
  percentile_y : List ℚ
deriving Repr, DecidableEq

/-- `SkipRateDistribution` from `src/types.rs`. -/
structure SkipRateDistribution where
  buckets : List DistributionBucket
  percentiles : List PercentileData
  plot_data : DistributionPlotData
deriving Repr, DecidableEq

/-- The `bucket_ranges` table of `calculate_distribution`:
`(min_percent, max_percent, label)`.  Note the source's Excellent bucket
starts at `0.0001` and its Failing bucket ends at `99.9`. -/
def bucketRanges : List (ℚ × ℚ × String) :=
  [ (0, 0, "Perfect (0%)"),
    (1/10000, 1, "Excellent (0.1-1%)"),
    (1, 2, "Good (1-2%)"),
    (2, 5, "Average (2-5%)"),
    (5, 10, "Concerning (5-10%)"),
    (10, 25, "Poor (10-25%)"),
    (25, 50, "Critical (25-50%)"),
    (50, 999/10, "Failing (50-99%)"),
    (100, 100, "Dead (100%)") ]

/-- The bucket membership test of `calculate_distribution`: exact match for the
Perfect and Dead labels, `min <= rate < max` otherwise (the source's separate
`Failing` branch is the same inclusive-lower/exclusive-upper test). -/
def inBucket (min_percent max_percent : ℚ) (label : String) (v : ValidatorSkipRate) : Bool :=
  if label = "Perfect (0%)" then decide (v.skip_rate_percent = 0)
  else if label = "Dead (100%)" then decide (v.skip_rate_percent = 100)
  else if label = "Failing (50-99%)" then
    decide (min_percent ≤ v.skip_rate_percent ∧ v.skip_rate_percent < max_percent)
  else decide (min_percent ≤ v.skip_rate_percent ∧ v.skip_rate_percent < max_percent)

/-- One loop iteration of the bucket computation in `calculate_distribution`. -/
def mkBucket (validators : List ValidatorSkipRate) (r : ℚ × ℚ × String) : DistributionBucket :=
  let count := validators.countP (inBucket r.1 r.2.1 r.2.2)
  let slots := ((validators.filter (inBucket r.1 r.2.1 r.2.2)).map (fun v => v.leader_slots)).sum
  { range_label := r.2.2
    min_percent := r.1
    max_percent := r.2.1
    validator_count := count
    percentage_of_total :=
      if 0 < validators.length then ((count : ℚ) / (validators.length : ℚ)) * 100 else 0
    total_slots := slots }

/-- The percentile ladder `[10, 20, ..., 90, 95, 99]`. -/
def percentilesToCalculate : List ℕ :=
  [10, 20, 30, 40, 50, 60, 70, 80, 90, 95, 99]

/-- `BlockProductionClient::calculate_distribution`. -/
def calculate_distribution (validators : List ValidatorSkipRate) : SkipRateDistribution :=
  let buckets := bucketRanges.map (mkBucket validators)
  let sorted := sortRates (skipRates validators)
  let percentiles := percentilesToCalculate.map
    (fun p => PercentileData.mk p (calculate_percentile sorted ((p : ℚ) / 100)))
  { buckets := buckets
    percentiles := percentiles
    plot_data :=
      { histogram_labels := bucketRanges.map (fun r => r.2.2)
        histogram_values := buckets.map (fun b => b.validator_count)
        percentile_x := percentilesToCalculate
        percentile_y := percentiles.map (fun p => p.skip_rate_percent) } }

/-! ## Network health (`BlockProductionClient::calculate_network_health`)

Timestamps (`triggered_at`) are stateful wall-clock reads and are omitted from
the embedding; an alert's `message` is a fixed format string applied to
numeric quantities, so it is modelled by the list of those quantities. -/

/-- `NetworkStatus` from `src/types.rs`. -/
inductive NetworkStatus where
  | Healthy
  | Warning
  | Critical
  | Degraded
deriving Repr, DecidableEq

/-- `AlertSeverity` from `src/types.rs`. -/
inductive AlertSeverity where
  | Info
  | Warning
  | Critical
deriving Repr, DecidableEq

/-- `AlertCategory` from `src/types.rs`. -/
inductive AlertCategory where
  | SkipRate
  | ValidatorCount
  | NetworkEfficiency
  | Performance
deriving Repr, DecidableEq

/-- `NetworkAlert` from `src/types.rs`, with `triggered_at` omitted and the
formatted `message` represented by its numeric arguments. -/
structure NetworkAlert where
  severity : AlertSeverity
  category : AlertCategory
  payload : List ℚ
deriving Repr, DecidableEq

/-- `MetricCard` from `src/types.rs`; the formatted `value` string is
represented by the number being formatted. -/
structure MetricCard where
  value : ℚ
  color : String
  subtitle : String
deriving Repr, DecidableEq

/-- `DashboardMetrics` from `src/types.rs`. -/
structure DashboardMetrics where
  network_skip_rate : MetricCard
  active_validators : MetricCard
  network_efficiency : MetricCard
  concerning_validators : MetricCard
deriving Repr, DecidableEq

/-- `NetworkHealthSummary` from `src/types.rs`. -/
structure NetworkHealthSummary where
  health_score : ℚ
  status : NetworkStatus
  key_metrics : DashboardMetrics
  alerts : List NetworkAlert
deriving Repr, DecidableEq

/-- `BlockProductionClient::calculate_health_score`. -/
def calculate_health_score (s : SkipRateStatistics) : ℚ :=
  let skip_rate_score := ((5 - min s.overall_skip_rate_percent 5) / 5) * 40
  let efficiency_score := (s.network_efficiency_percent / 100) * 30
  let validator_health_score :=
    if 0 < s.total_validators then
      (((s.total_validators - s.concerning_validators : ℕ) : ℚ) / (s.total_validators : ℚ)) * 30
    else 0
  min (skip_rate_score + efficiency_score + validator_health_score) 100

open ValidatorSkipRate in
/-- The high-impact filter of `calculate_network_health`
(`skip_rate_percent > 10 && leader_slots > 1000`). -/
def highImpactBadOf (validators : List ValidatorSkipRate) : List ValidatorSkipRate :=
  validators.filter (fun v => decide (10 < v.skip_rate_percent ∧ 1000 < v.leader_slots))

open ValidatorSkipRate in
/-- `BlockProductionClient::calculate_network_health`.  The division
`total_concerning_slots / total_leader_slots` is unguarded in the source; on
reachable inputs (concerning count `> 20` forces positive slot totals) both
models agree, and `ℚ` assigns `x / 0 = 0`. -/
def calculate_network_health (s : SkipRateStatistics)
    (validators : List ValidatorSkipRate) : NetworkHealthSummary :=
  let health_score := calculate_health_score s
  let status :=
    if 90 ≤ health_score then NetworkStatus.Healthy
    else if 75 ≤ health_score then NetworkStatus.Warning
    else if 50 ≤ health_score then NetworkStatus.Degraded
    else NetworkStatus.Critical
  let key_metrics : DashboardMetrics :=
    { network_skip_rate :=
        { value := s.overall_skip_rate_percent
          color :=
            if s.overall_skip_rate_percent < 1 then "#22c55e"
            else if s.overall_skip_rate_percent < 3 then "#eab308"
            else "#ef4444"
          subtitle := "Network skip rate" }
      active_validators :=
        { value := (s.significant_validators : ℚ)
          color := "#22c55e"
          subtitle := "Active validators" }
      network_efficiency :=
        { value := s.network_efficiency_percent
          color :=
            if 99 < s.network_efficiency_percent then "#22c55e"
            else if 97 < s.network_efficiency_percent then "#eab308"
            else "#ef4444"
          subtitle := "Network efficiency" }
      concerning_validators :=
        { value := (s.concerning_validators : ℚ)
          color :=
            if s.concerning_validators = 0 then "#22c55e"
            else if s.concerning_validators < 10 then "#eab308"
            else "#ef4444"
          subtitle := "Concerning validators" } }
  let alerts1 : List NetworkAlert :=
    if 5 < s.overall_skip_rate_percent then
      [⟨.Critical, .SkipRate, [s.overall_skip_rate_percent]⟩]
    else []
  let alerts2 : List NetworkAlert :=
    if 20 < s.concerning_validators then
      let cd := concerningOf validators
      let significant_concerning := (cd.filter is_significant).length
      let impact := ((totalLeaderSlots cd : ℚ) / (s.total_leader_slots : ℚ)) * 100
      if 2 < impact ∨ 10 < significant_concerning then
        [⟨if 5 < impact then .Critical else .Warning, .ValidatorCount,
          [(s.concerning_validators : ℚ), (significant_concerning : ℚ), impact,
           (totalMissedSlots cd : ℚ)]⟩]
      else []
    else []
  let alerts3 : List NetworkAlert :=
    if s.network_efficiency_percent < 95 then
      [⟨.Warning, .NetworkEfficiency, [s.network_efficiency_percent]⟩]
    else []
  let alerts4 : List NetworkAlert :=
    if (highImpactBadOf validators).isEmpty then []
    else
      [⟨.Critical, .ValidatorCount,
        [((highImpactBadOf validators).length : ℚ),
         (totalMissedSlots (highImpactBadOf validators) : ℚ)]⟩]
  { health_score := health_score
    status := status
    key_metrics := key_metrics
    alerts := alerts1 ++ alerts2 ++ alerts3 ++ alerts4 }

/-- `ValidatorPerformanceSnapshot` from `src/types.rs`, without the wall-clock
`timestamp`. -/
structure ValidatorPerformanceSnapshot where
  slot_range : SlotRange
  validator_pubkey : String
  skip_rate_percent : ℚ
  leader_slots : ℕ
  blocks_produced : ℕ
  performance_category : ValidatorPerformanceCategory
deriving Repr, DecidableEq

/-- `BlockProductionClient::create_performance_snapshots`, without timestamps. -/
def create_performance_snapshots (validators : List ValidatorSkipRate)
    (slot_range : SlotRange) : List ValidatorPerformanceSnapshot :=
  validators.map (fun v =>
    { slot_range := slot_range
      validator_pubkey := v.pubkey
      skip_rate_percent := v.skip_rate_percent
      leader_slots := v.leader_slots
      blocks_produced := v.blocks_produced
      performance_category :=
        ValidatorPerformanceCategory.from_skip_rate v.skip_rate_percent v.leader_slots })

/-! ## Error taxonomy (`src/error.rs`) -/

/-- `TimeoutType` from `src/error.rs`. -/
inductive TimeoutType where
  | Connection
  | Read
  | Request
deriving Repr, DecidableEq

/-- `AuthErrorType` from `src/error.rs`. -/
inductive AuthErrorType where
  | MissingApiKey
  | InvalidApiKey
  | QuotaExceeded
  | IpBlocked
deriving Repr, DecidableEq

/-- `ErrorCategory` from `src/error.rs`. -/
inductive ErrorCategory where
  | Network
  | Configuration
  | Validation
  | Rpc
  | RateLimit
  | Authentication
deriving Repr, DecidableEq

/-- The observable state of a `reqwest::Error` used by `src/error.rs`:
`is_timeout()`, `is_connect()`, and `status()`. -/
structure HttpSource where
  timeout : Bool
  connect : Bool
  status : Option ℕ
deriving Repr, DecidableEq

/-- `BlockProductionError` from `src/error.rs`.  Durations are whole seconds;
the opaque boxed `source` of `ConnectionFailed` carries no data used by any
classification method and is omitted. -/
inductive BlockProductionError where
  | Http (source : HttpSource) (context : Option String)
  | Json (data_sample : Option String)
  | Rpc (code : ℤ) (message : String) (method : String) (raw_response : Option String)
  | Config (message : String) (field : Option String) (suggestion : Option String)
  | RateLimit (requests : ℕ) (window : ℕ) (limit : ℕ) (retry_after : Option ℕ)
  | Timeout (duration : ℕ) (operation : String) (timeout_type : TimeoutType)
  | InvalidSlotRange (message : String) (provided_range : Option (ℕ × ℕ))
      (valid_range : Option (ℕ × ℕ))
  | NoData (requested_range : Option (ℕ × ℕ)) (reason : Option String)
  | RetryExhausted (attempts : ℕ) (total_duration : ℕ)
      (last_error : BlockProductionError) (error_history : List String)
  | InvalidValidator (pubkey : String) (expected_format : String)
  | ConnectionFailed (endpoint : String) (endpoint_reachable : Option Bool)
  | ResponseParsing (reason : String) (response_sample : Option String)
      (expected_structure : Option String)
  | Internal (message : String) (location : Option String) (debug_context : Option String)
  | Auth (message : String) (auth_type : AuthErrorType)
  | General (message : String) (category : Option ErrorCategory)
deriving Repr, DecidableEq

namespace BlockProductionError

/-- `StatusCode::is_server_error`: status in `500..=599`. -/
def isServerErrorStatus (c : ℕ) : Bool :=
  decide (500 ≤ c ∧ c ≤ 599)

/-- `ErrorExt::is_retryable` for `BlockProductionError`. -/
def is_retryable : BlockProductionError → Bool
  | .Http s _ =>
      s.timeout || s.connect ||
        (match s.status with
         | none => true
         | some c => isServerErrorStatus c)
  | .Timeout _ _ _ => true
  | .RateLimit _ _ _ _ => true
  | .ConnectionFailed _ _ => true
  | .Rpc code _ _ _ => decide (code = -32603) || decide (code = -32000)
  | .Json _ => false
  | .Config _ _ _ => false
  | .InvalidSlotRange _ _ _ => false
  | .InvalidValidator _ _ => false
  | .Auth _ _ => false
  | .NoData _ _ => false
  | .RetryExhausted _ _ _ _ => false
  | .ResponseParsing _ _ _ => false
  | .Internal _ _ _ => false
  | .General _ category =>
      match category with
      | some .Network => true
      | some .RateLimit => true
      | _ => false

/-- `ErrorExt::is_config_error` for `BlockProductionError`. -/
def is_config_error : BlockProductionError → Bool
  | .Config _ _ _ => true
  | .InvalidSlotRange _ _ _ => true
  | .InvalidValidator _ _ => true
  | _ => false

/-- `ErrorExt::is_transient` for `BlockProductionError`. -/
def is_transient : BlockProductionError → Bool
  | .Http s _ => s.timeout || s.connect
  | .Timeout _ _ _ => true
  | .RateLimit _ _ _ _ => true
  | .ConnectionFailed _ _ => true
  | _ => false

/-- `ErrorExt::retry_delay` for `BlockProductionError` (seconds).  The source's
guarded match arms `Http if source.is_timeout() => 3s` and
`_ if self.is_retryable() => 1s` become nested conditionals. -/
def retry_delay : BlockProductionError → Option ℕ
  | .RateLimit _ _ _ retry_after => retry_after.or (some 60)
  | .Timeout _ _ _ => some 5
  | .ConnectionFailed _ _ => some 2
  | .Http s c =>
      if s.timeout then some 3
      else if is_retryable (.Http s c) then some 1
      else none
  | e => if is_retryable e then some 1 else none

/-- `ErrorExt::category` for `BlockProductionError`. -/
def category : BlockProductionError → ErrorCategory
  | .Http _ _ => .Network
  | .ConnectionFailed _ _ => .Network
  | .Timeout _ _ _ => .Network
  | .Config _ _ _ => .Configuration
  | .InvalidSlotRange _ _ _ => .Validation
  | .InvalidValidator _ _ => .Validation
  | .Rpc _ _ _ _ => .Rpc
  | .ResponseParsing _ _ _ => .Rpc
  | .RateLimit _ _ _ _ => .RateLimit
  | .Auth _ _ => .Authentication
  | .Json _ => .Network
  | .NoData _ _ => .Network
  | .RetryExhausted _ _ _ _ => .Network
  | .Internal _ _ _ => .Network
  | .General _ category => category.getD .Network

end BlockProductionError

/-! ## Configuration and client construction (`src/config.rs`, `src/client.rs`) -/

/-- `ClientConfig` from `src/config.rs`; the `governor` rate limiter is
represented by its configured requests-per-second quota. -/
structure ClientConfig where
  rpc_endpoint : String
  timeout_secs : ℕ
  retry_attempts : ℕ
  rate_limit_per_second : Option ℕ
  max_concurrent_requests : ℕ
  headers : List (String × String)
deriving Repr, DecidableEq

/-- `ClientConfig::default`. -/
def ClientConfig.default : ClientConfig where
  rpc_endpoint := "https://api.mainnet-beta.solana.com"
  timeout_secs := 30
  retry_attempts := 3
  rate_limit_per_second := none
  max_concurrent_requests := 10
  headers := []

/-- Modelled from the spec: `reqwest::header::HeaderName::from_bytes` (external
`http` crate, not under `src/`) accepts exactly non-empty strings of HTTP
token characters — alphanumerics and the fifteen specials
`! # $ % & ' * + - . ^ _ \x60 | ~` (listed by code point below). -/
def validHeaderNameChar (c : Char) : Bool :=
  c.isAlphanum ||
    [33, 35, 36, 37, 38, 39, 42, 43, 45, 46, 94, 95, 96, 124, 126].contains c.toNat

/-- Modelled from the spec: valid HTTP header name (see `validHeaderNameChar`). -/
def validHeaderName (s : String) : Bool :=
  !s.isEmpty && s.toList.all validHeaderNameChar

/-- Modelled from the spec: `reqwest::header::HeaderValue::from_str` (external
`http` crate, not under `src/`) accepts strings whose characters are horizontal
tab or visible characters (code point at least 32, not DEL). -/
def validHeaderValueChar (c : Char) : Bool :=
  c.toNat = 9 || (32 ≤ c.toNat && c.toNat ≠ 127)

/-- Modelled from the spec: valid HTTP header value (see `validHeaderValueChar`). -/
def validHeaderValue (s : String) : Bool :=
  s.toList.all validHeaderValueChar

/-- The client handle produced by a successful construction; the `reqwest`
HTTP client itself performs no further validation of interest. -/
structure BlockProductionClient where
  config : ClientConfig
deriving Repr, DecidableEq

namespace BlockProductionClient

/-- The header-validation loop of `BlockProductionClient::from_config`: each
`(key, value)` pair is checked, name first, and the first failure is returned
as a configuration error. -/
def validate_headers : List (String × String) → Except BlockProductionError Unit
  | [] => .ok ()
  | (key, value) :: rest =>
      if !validHeaderName key then
        .error (.Config ("Invalid header name " ++ key) (some "headers")
          (some "Use valid HTTP header names (alphanumeric and hyphens)"))
      else if !validHeaderValue value then
        .error (.Config ("Invalid header value " ++ value) (some "headers")
          (some "Header values must be valid ASCII"))
      else validate_headers rest

/-- `BlockProductionClient::from_config`: validates the custom headers, builds
the HTTP client (which cannot fail once the headers are valid), and returns the
client.  Note: `from_config` performs no validation of the endpoint. -/
def from_config (config : ClientConfig) : Except BlockProductionError BlockProductionClient :=
  match validate_headers config.headers with
  | .error e => .error e
  | .ok _ => .ok ⟨config⟩

/-- `BlockProductionClient::new`: rejects an empty endpoint, then an endpoint
without an `http://` or `https://` prefix, then delegates to `from_config`
with the default configuration carrying the endpoint. -/
def new (rpc_endpoint : String) : Except BlockProductionError BlockProductionClient :=
  if rpc_endpoint.isEmpty then
    .error (.Config "RPC endpoint cannot be empty" (some "rpc_endpoint")
      (some "Provide a valid Solana RPC endpoint URL"))
  else if !(rpc_endpoint.startsWith "http://" || rpc_endpoint.startsWith "https://") then
    .error (.Config "RPC endpoint must start with http:// or https://" (some "rpc_endpoint")
      (some "Use a complete URL like https://api.mainnet-beta.solana.com"))
  else
    from_config { ClientConfig.default with rpc_endpoint := rpc_endpoint }

end BlockProductionClient

/-- `ClientBuilder::build`: delegates directly to
`BlockProductionClient::from_config` on the accumulated configuration. -/
def ClientBuilder.build (config : ClientConfig) :
    Except BlockProductionError BlockProductionClient :=
  BlockProductionClient.from_config config

/-- `BlockProductionRequest` from `src/types.rs`. -/
structure BlockProductionRequest where
  range : Option SlotRange
  commitment : Option String
deriving Repr, DecidableEq

/-- The pre-network part of `BlockProductionClient::fetch_block_production_range`:
it returns `InvalidSlotRange` when `first_slot >= last_slot`, and otherwise the
request parameters that are handed to the transport.  In the source this check
is the first statement of the function, before any `await`, so it runs strictly
before any network activity. -/
def fetch_block_production_range_request (first_slot last_slot : ℕ) :
    Except BlockProductionError BlockProductionRequest :=
  if first_slot ≥ last_slot then
    .error (.InvalidSlotRange
      ("Invalid slot range: first_slot (" ++ toString first_slot ++
        ") must be less than last_slot (" ++ toString last_slot ++ ")")
      (some (first_slot, last_slot)) none)
  else
    .ok { range := some ⟨first_slot, last_slot⟩, commitment := none }

/-! ## The analytics pipeline (`BlockProductionClient::process_block_production_response`) -/

/-- `BlockProductionData` from `src/types.rs`, without the wall-clock
`fetched_at`. -/
structure BlockProductionData where
  validators : List ValidatorSkipRate
  statistics : SkipRateStatistics
  distribution : SkipRateDistribution
  network_health : NetworkHealthSummary
  performance_snapshots : List ValidatorPerformanceSnapshot
  slot_range : SlotRange
deriving Repr, DecidableEq

/-- `BlockProductionClient::process_block_production_response`: the pure
transform from the decoded `byIdentity` map (one association per validator,
in the iteration order produced by the `HashMap`) and slot range to the full
result.  An empty map yields `NoData`; otherwise records are built, sorted
ascending by skip rate (stable), and all derived structures computed. -/
def process_block_production_response (w : ℕ → ℚ)
    (by_identity : List (String × ℕ × ℕ)) (range : SlotRange) :
    Except BlockProductionError BlockProductionData :=
  if by_identity.isEmpty then
    .error (.NoData (some (range.first_slot, range.last_slot))
      (some "No block production data available for the specified slot range"))
  else
    let validators := sortValidatorsBySkipRate
      (by_identity.map (fun t => ValidatorSkipRate.new t.1 t.2.1 t.2.2))
    let statistics := calculate_statistics w validators
    .ok
      { validators := validators
        statistics := statistics
        distribution := calculate_distribution validators
        network_health := calculate_network_health statistics validators
        performance_snapshots := create_performance_snapshots validators range
        slot_range := range }

/-! ## Claim C6: `ValidatorSkipRate::new` invariants -/

/-- C6: for every record built by `ValidatorSkipRate::new`, `missed_slots` is
`max(0, assignedSlots - producedBlocks)` (saturating, no underflow), the skip
rate lies in `[0, 100]`, and the skip rate is exactly `0` when no slots were
assigned. -/
theorem C6_validator_record_invariants (pk : String) (a b : ℕ) :
    ((ValidatorSkipRate.new pk a b).missed_slots : ℤ) = max 0 ((a : ℤ) - (b : ℤ)) ∧
    0 ≤ (ValidatorSkipRate.new pk a b).skip_rate_percent ∧
    (ValidatorSkipRate.new pk a b).skip_rate_percent ≤ 100 ∧
    (a = 0 → (ValidatorSkipRate.new pk a b).skip_rate_percent = 0) := by
  refine ⟨?_, ?_, ?_, ?_⟩
  · simp only [ValidatorSkipRate.new]
    omega
  · simp only [ValidatorSkipRate.new]
    split
    · positivity
    · exact le_refl 0
  · simp only [ValidatorSkipRate.new]
    split
    · rename_i ha
      have ha' : (0 : ℚ) < (a : ℚ) := by exact_mod_cast ha
      have hm : ((a - b : ℕ) : ℚ) ≤ (a : ℚ) := by exact_mod_cast Nat.sub_le a b
      have hdiv : ((a - b : ℕ) : ℚ) / (a : ℚ) ≤ 1 := div_le_one_of_le₀ hm ha'.le
      nlinarith
    · norm_num
  · intro ha
    simp [ValidatorSkipRate.new, ha]

/-- C6 witness: the invariants at concrete inputs, including the
`producedBlocks > assignedSlots` underflow case. -/
theorem C6_validator_record_invariants_witness :
    (ValidatorSkipRate.new "zero" 0 5).skip_rate_percent = 0 ∧
    ((ValidatorSkipRate.new "impossible" 50 100).missed_slots : ℤ) =
      max 0 ((50 : ℤ) - (100 : ℤ)) := by
  constructor
  · exact (C6_validator_record_invariants "zero" 0 5).2.2.2 rfl
  · exact (C6_validator_record_invariants "impossible" 50 100).1

/-! ## Claim C1: the Scenario A statistics -/

/-- The Scenario A raw input map
`{perfect: (100,100), good: (100,98), concerning: (100,90), bad: (100,80)}`. -/
def scenarioRaw : List (String × ℕ × ℕ) :=
  [("perfect", 100, 100), ("good", 100, 98), ("concerning", 100, 90), ("bad", 100, 80)]

/-- The Scenario A validator records, sorted as in
`process_block_production_response`. -/
def scenarioValidators : List ValidatorSkipRate :=
  sortValidatorsBySkipRate (scenarioRaw.map (fun t => ValidatorSkipRate.new t.1 t.2.1 t.2.2))

/-- C1: on the Scenario A input, `calculate_statistics` (with nearest-rank
`calculate_percentile`) produces 400 total leader slots, 32 missed slots,
overall skip rate 8.0, one perfect and two concerning validators, median 6.0,
average 8.0 and 95th percentile 10.0 — for every weight function `w`
abstracting the logarithmic significance weight. -/
theorem C1_scenario_statistics (w : ℕ → ℚ) :
    (calculate_statistics w scenarioValidators).total_leader_slots = 400 ∧
    (calculate_statistics w scenarioValidators).total_missed_slots = 32 ∧
    (calculate_statistics w scenarioValidators).overall_skip_rate_percent = 8 ∧
    (calculate_statistics w scenarioValidators).perfect_validators = 1 ∧
    (calculate_statistics w scenarioValidators).concerning_validators = 2 ∧
    (calculate_statistics w scenarioValidators).median_skip_rate_percent = 6 ∧
    (calculate_statistics w scenarioValidators).average_skip_rate_percent = 8 ∧
    (calculate_statistics w scenarioValidators).skip_rate_95th_percentile = 10 :=
  ⟨of_decide_eq_true (by with_unfolding_all rfl),
   of_decide_eq_true (by with_unfolding_all rfl),
   of_decide_eq_true (by with_unfolding_all rfl),
   of_decide_eq_true (by with_unfolding_all rfl),
   of_decide_eq_true (by with_unfolding_all rfl),
   of_decide_eq_true (by with_unfolding_all rfl),
   of_decide_eq_true (by with_unfolding_all rfl),
   of_decide_eq_true (by with_unfolding_all rfl)⟩

/-! ## Claim C2, counterexample: the bucket table has gaps -/

/-- A validator with skip rate `0.00001` percent: strictly positive but below
the `0.0001` lower bound of the source's Excellent bucket. -/
def gapValidator : ValidatorSkipRate :=
  ValidatorSkipRate.new "tiny" 10000000 9999999

/-- C2 counterexample: for the non-empty list `[gapValidator]`, the bucket
counts of `calculate_distribution` sum to `0`, not to the total validator
count `1`; the validator's rate is in `[0, 100]` (indeed in the claim's
Excellent range `[0, 1)`), yet it falls in no bucket. -/
theorem C2_counterexample_bucket_gap :
    (((calculate_distribution [gapValidator]).buckets.map
        (fun b => b.validator_count)).sum = 0) ∧
    ([gapValidator] : List ValidatorSkipRate).length = 1 ∧
    0 < gapValidator.skip_rate_percent ∧ gapValidator.skip_rate_percent < 1 :=
  ⟨of_decide_eq_true (by with_unfolding_all rfl),
   rfl,
   of_decide_eq_true (by with_unfolding_all rfl),
   of_decide_eq_true (by with_unfolding_all rfl)⟩

/-! ## Claim C8: slot-range validation before any network activity -/

/-- C8: `fetch_block_production_range` rejects every range with
`first_slot >= last_slot` with an `InvalidSlotRange` error carrying the
provided range — before any transport activity, as the embedded function is
the pure prefix of the source function — and passes every valid range on to
the fetch as request parameters. -/
theorem C8_range_validation (first_slot last_slot : ℕ) :
    (last_slot ≤ first_slot →
      ∃ msg, fetch_block_production_range_request first_slot last_slot =
        .error (.InvalidSlotRange msg (some (first_slot, last_slot)) none)) ∧
    (first_slot < last_slot →
      fetch_block_production_range_request first_slot last_slot =
        .ok { range := some ⟨first_slot, last_slot⟩, commitment := none }) := by
  constructor
  · intro h
    refine ⟨"Invalid slot range: first_slot (" ++ toString first_slot ++
      ") must be less than last_slot (" ++ toString last_slot ++ ")", ?_⟩
    simp only [fetch_block_production_range_request, ge_iff_le, if_pos h]
  · intro h
    simp only [fetch_block_production_range_request, ge_iff_le,
      if_neg (Nat.not_le.mpr h)]

/-- C8 witness: the Scenario C range `(2000, 1000)` is rejected, and the valid
range `(1000, 2000)` is passed through. -/
theorem C8_range_validation_witness :
    (∃ msg, fetch_block_production_range_request 2000 1000 =
      .error (.InvalidSlotRange msg (some (2000, 1000)) none)) ∧
    fetch_block_production_range_request 1000 2000 =
      .ok { range := some ⟨1000, 2000⟩, commitment := none } :=
  ⟨(C8_range_validation 2000 1000).1 (by decide),
   (C8_range_validation 1000 2000).2 (by decide)⟩

/-! ## Claim C3: the retryability allow-list -/

/-- The claim's allow-list for retryability, stated from the spec's words:
transport/HTTP network errors (HTTP-source failures that are timeouts,
connection failures, or carry no status; connection failures; generic errors
categorised as network), `Timeout`, rate-limit errors (`RateLimit`; generic
errors categorised as rate-limit), HTTP statuses in the 5xx range, and the
narrow RPC-code allow-list `-32603` (internal error) and `-32000`
(server error). -/
def retryableSpec : BlockProductionError → Prop
  | .Http s _ => s.timeout = true ∨ s.connect = true ∨ s.status = none ∨
      (∃ c, s.status = some c ∧ 500 ≤ c ∧ c ≤ 599)
  | .Timeout _ _ _ => True
  | .RateLimit _ _ _ _ => True
  | .ConnectionFailed _ _ => True
  | .Rpc code _ _ _ => code = -32603 ∨ code = -32000
  | .General _ (some .Network) => True
  | .General _ (some .RateLimit) => True
  | _ => False

/-- C3: `is_retryable` returns `true` exactly on the allow-list of the claim
(`retryableSpec`), and `false` on every other error kind and every other HTTP
status. -/
theorem C3_is_retryable_characterization (e : BlockProductionError) :
    e.is_retryable = true ↔ retryableSpec e := by
  cases e with
  | Http s ctx =>
      obtain ⟨t, c, st⟩ := s
      cases t <;> cases c <;> rcases st with _ | code <;>
        simp [BlockProductionError.is_retryable, retryableSpec,
          BlockProductionError.isServerErrorStatus]
  | Rpc code msg meth raw =>
      simp [BlockProductionError.is_retryable, retryableSpec]
  | General msg cat =>
      rcases cat with _ | c
      · simp [BlockProductionError.is_retryable, retryableSpec]
      · cases c <;> simp [BlockProductionError.is_retryable, retryableSpec]
  | Json d => simp [BlockProductionError.is_retryable, retryableSpec]
  | Config m f s => simp [BlockProductionError.is_retryable, retryableSpec]
  | RateLimit r w l ra => simp [BlockProductionError.is_retryable, retryableSpec]
  | Timeout d o t => simp [BlockProductionError.is_retryable, retryableSpec]
  | InvalidSlotRange m p v => simp [BlockProductionError.is_retryable, retryableSpec]
  | NoData r re => simp [BlockProductionError.is_retryable, retryableSpec]
  | RetryExhausted a t l h => simp [BlockProductionError.is_retryable, retryableSpec]
  | InvalidValidator p f => simp [BlockProductionError.is_retryable, retryableSpec]
  | ConnectionFailed ep re => simp [BlockProductionError.is_retryable, retryableSpec]
  | ResponseParsing r s ex => simp [BlockProductionError.is_retryable, retryableSpec]
  | Internal m l d => simp [BlockProductionError.is_retryable, retryableSpec]
  | Auth m a => simp [BlockProductionError.is_retryable, retryableSpec]

/-! ## Claim C7: suggested retry delays -/

/-- C7 counterexample: the claim says `retry_delay` is `None` for every error
kind other than `RateLimited`/`Timeout`/transport failure, but a retryable RPC
protocol error (code `-32603`) gets the generic 1-second delay. -/
theorem C7_counterexample_rpc_delay :
    (BlockProductionError.Rpc (-32603) "internal" "getBlockProduction" none).retry_delay
      = some 1 ∧
    some 1 ≠ (none : Option ℕ) := by
  refine ⟨?_, by simp⟩
  rfl

/-- C7 (amended): `retry_delay` returns the explicitly carried retry-after for
`RateLimited` (with a 60-second default when none is carried), 5 seconds for
`Timeout`, 2 seconds for connection failure, 3 seconds for an HTTP error whose
source is a timeout, the generic 1 second for every other retryable error, and
`None` for every other (non-retryable) error. -/
theorem C7_amended_retry_delay (e : BlockProductionError) :
    (∀ req win lim d, e = .RateLimit req win lim (some d) → e.retry_delay = some d) ∧
    (∀ req win lim, e = .RateLimit req win lim none → e.retry_delay = some 60) ∧
    (∀ dur op tt, e = .Timeout dur op tt → e.retry_delay = some 5) ∧
    (∀ ep reach, e = .ConnectionFailed ep reach → e.retry_delay = some 2) ∧
    (∀ s ctx, e = .Http s ctx → s.timeout = true → e.retry_delay = some 3) ∧
    (∀ s ctx, e = .Http s ctx → s.timeout = false →
      e.retry_delay = if e.is_retryable then some 1 else none) ∧
    ((match e with
      | .RateLimit _ _ _ _ => False
      | .Timeout _ _ _ => False
      | .ConnectionFailed _ _ => False
      | .Http _ _ => False
      | _ => True) →
      e.retry_delay = if e.is_retryable then some 1 else none) := by
  cases e <;>
    refine ⟨?_, ?_, ?_, ?_, ?_, ?_, ?_⟩ <;>
    intros <;>
    simp_all [BlockProductionError.retry_delay, Option.or]

/-- C7 witness for the amended claim, at one concrete error of each shape. -/
theorem C7_amended_retry_delay_witness :
    (BlockProductionError.RateLimit 0 60 0 (some 45)).retry_delay = some 45 ∧
    (BlockProductionError.RateLimit 0 60 0 none).retry_delay = some 60 ∧
    (BlockProductionError.Timeout 30 "rpc" .Request).retry_delay = some 5 ∧
    (BlockProductionError.ConnectionFailed "https://e" none).retry_delay = some 2 ∧
    (BlockProductionError.Http ⟨true, false, none⟩ none).retry_delay = some 3 ∧
    (BlockProductionError.Rpc (-32000) "server" "m" none).retry_delay = some 1 ∧
    (BlockProductionError.Config "bad" none none).retry_delay = none := by
  refine ⟨?_, ?_, ?_, ?_, ?_, ?_, ?_⟩
  · exact (C7_amended_retry_delay _).1 0 60 0 45 rfl
  · exact (C7_amended_retry_delay _).2.1 0 60 0 rfl
  · exact (C7_amended_retry_delay _).2.2.1 30 "rpc" .Request rfl
  · exact (C7_amended_retry_delay _).2.2.2.1 "https://e" none rfl
  · exact (C7_amended_retry_delay _).2.2.2.2.1 ⟨true, false, none⟩ none rfl rfl
  · have h := (C7_amended_retry_delay
      (BlockProductionError.Rpc (-32000) "server" "m" none)).2.2.2.2.2.2 trivial
    rw [h]; rfl
  · have h := (C7_amended_retry_delay
      (BlockProductionError.Config "bad" none none)).2.2.2.2.2.2 trivial
    rw [h]; rfl

/-! ## Claim C9: configuration validation at construction -/

/-- C9 counterexample: `from_config` — the path taken by the builder's
`build()` — returns a client for a configuration whose endpoint is empty (and
so has no scheme prefix); the endpoint is validated only on the
`BlockProductionClient::new` path. -/
theorem C9_counterexample_from_config_endpoint :
    BlockProductionClient.from_config { ClientConfig.default with rpc_endpoint := "" } =
      .ok ⟨{ ClientConfig.default with rpc_endpoint := "" }⟩ ∧
    ({ ClientConfig.default with rpc_endpoint := "" } : ClientConfig).rpc_endpoint.isEmpty
      = true := by
  constructor <;> rfl

/-- The header-validation loop succeeds exactly when every header pair has a
valid name and a valid value. -/
theorem validate_headers_ok_iff (l : List (String × String)) :
    (BlockProductionClient.validate_headers l).isOk = true ↔
      ∀ kv ∈ l, validHeaderName kv.1 = true ∧ validHeaderValue kv.2 = true := by
  induction l with
  | nil => simp [BlockProductionClient.validate_headers, Except.isOk, Except.toBool]
  | cons kv t ih =>
      obtain ⟨k, v⟩ := kv
      by_cases hk : validHeaderName k
      · by_cases hv : validHeaderValue v
        · simp [BlockProductionClient.validate_headers, hk, hv, ih]
        · simp [BlockProductionClient.validate_headers, hk, hv, Except.isOk, Except.toBool]
      · simp [BlockProductionClient.validate_headers, hk, Except.isOk, Except.toBool]

/-- C9 (amended): only the `new` construction path validates the endpoint —
`new` succeeds exactly when the endpoint is non-empty and carries an
`http://` or `https://` prefix (its configuration has no custom headers) —
while `from_config`, and hence the builder's `build()`, succeeds exactly when
every custom header has a valid name and value, with no endpoint validation
at all. -/
theorem C9_amended_construction_validation :
    (∀ ep : String, (BlockProductionClient.new ep).isOk = true ↔
      (ep.isEmpty = false ∧
        (ep.startsWith "http://" = true ∨ ep.startsWith "https://" = true))) ∧
    (∀ cfg : ClientConfig, (BlockProductionClient.from_config cfg).isOk = true ↔
      ∀ kv ∈ cfg.headers, validHeaderName kv.1 = true ∧ validHeaderValue kv.2 = true) := by
  have hfc : ∀ cfg : ClientConfig, (BlockProductionClient.from_config cfg).isOk = true ↔
      ∀ kv ∈ cfg.headers, validHeaderName kv.1 = true ∧ validHeaderValue kv.2 = true := by
    intro cfg
    rw [← validate_headers_ok_iff]
    unfold BlockProductionClient.from_config
    rcases h : BlockProductionClient.validate_headers cfg.headers with e | u <;>
      simp [h, Except.isOk, Except.toBool]
  refine ⟨?_, hfc⟩
  intro ep
  by_cases h1 : ep.isEmpty
  · simp [BlockProductionClient.new, h1, Except.isOk, Except.toBool]
  · by_cases h2 : (ep.startsWith "http://" || ep.startsWith "https://") = true
    · have hnew : BlockProductionClient.new ep =
          BlockProductionClient.from_config { ClientConfig.default with rpc_endpoint := ep } := by
        simp [BlockProductionClient.new, h1, h2]
      rw [hnew, hfc]
      simp only [ClientConfig.default, List.not_mem_nil, false_implies, forall_const, true_iff]
      exact ⟨Bool.eq_false_iff.mpr h1, by simpa using h2⟩
    · constructor
      · intro hok
        exfalso
        simp [BlockProductionClient.new, h1, h2, Except.isOk, Except.toBool] at hok
      · rintro ⟨hne, hor⟩
        exact absurd (by rcases hor with h | h <;> simp [h]) h2

/-- C9 witness for the amended claim: a well-formed endpoint passes `new`; a
default configuration (no custom headers) passes `from_config`; a configuration
with an invalid header name is rejected by `from_config`. -/
theorem C9_amended_construction_validation_witness :
    (BlockProductionClient.new "https://api.mainnet-beta.solana.com").isOk = true ∧
    (BlockProductionClient.from_config ClientConfig.default).isOk = true ∧
    (BlockProductionClient.from_config
      { ClientConfig.default with headers := [("bad header", "v")] }).isOk = false := by
  refine ⟨?_, ?_, ?_⟩
  · exact (C9_amended_construction_validation.1 _).mpr
      ⟨rfl, Or.inr (of_decide_eq_true (by with_unfolding_all rfl))⟩
  · exact (C9_amended_construction_validation.2 _).mpr (by simp [ClientConfig.default])
  · have h := (C9_amended_construction_validation.2
      { ClientConfig.default with headers := [("bad header", "v")] })
    rw [Bool.eq_false_iff]
    intro hok
    have := (h.mp hok) ("bad header", "v") (by simp)
    have hbad : validHeaderName "bad header" = false :=
      of_decide_eq_true (by with_unfolding_all rfl)
    simp [hbad] at this

/-! ## Claim C10: subset-restricted statistics degrade to zero -/

/-- C10: when no validator is significant (`>= 50` slots), all significant- and
weight-restricted statistics are exactly `0`; when no validator is high-stake
(`> 1000` slots), the high-stake skip rate is `0`; and `calculate_percentile`
of an empty sample is `0` for every percentile. -/
theorem C10_subset_statistics_zero (w : ℕ → ℚ) (l : List ValidatorSkipRate) :
    ((∀ v ∈ l, v.leader_slots < 50) →
      (calculate_statistics w l).weighted_skip_rate_percent = 0 ∧
      (calculate_statistics w l).significant_validators_skip_rate_percent = 0 ∧
      (calculate_statistics w l).weighted_network_efficiency_percent = 0 ∧
      (calculate_statistics w l).significant_skip_rate_90th_percentile = 0 ∧
      (calculate_statistics w l).significant_skip_rate_95th_percentile = 0) ∧
    ((∀ v ∈ l, v.leader_slots ≤ 1000) →
      (calculate_statistics w l).high_stake_skip_rate_percent = 0) ∧
    (∀ p : ℚ, calculate_percentile [] p = 0) := by
  refine ⟨?_, ?_, fun p => rfl⟩
  · intro h
    have hsig : significantOf l = [] := by
      rw [significantOf, List.filter_eq_nil_iff]
      intro v hv
      simp only [ValidatorSkipRate.is_significant, decide_eq_true_eq]
      have := h v hv
      omega
    refine ⟨?_, ?_, ?_, ?_, ?_⟩ <;>
      simp [calculate_statistics, weightedSkipRate, totalWeight, weightedSkipSum,
        significantValidatorsSkipRate, weightedNetworkEfficiency, hsig,
        totalLeaderSlots, sortedRates, skipRates, sortRates, sortLe,
        calculate_percentile]
  · intro h
    have hhs : highStakeOf l = [] := by
      rw [highStakeOf, List.filter_eq_nil_iff]
      intro v hv
      simp only [ValidatorSkipRate.is_high_stake, decide_eq_true_eq]
      have := h v hv
      omega
    simp [calculate_statistics, highStakeSkipRate, hhs, totalLeaderSlots]

/-- C10 witness: a single low-activity validator and the empty-sample
percentile. -/
theorem C10_subset_statistics_zero_witness :
    (calculate_statistics (fun _ => 0) [ValidatorSkipRate.new "a" 10 5]).weighted_skip_rate_percent = 0 ∧
    (calculate_statistics (fun _ => 0) [ValidatorSkipRate.new "a" 10 5]).high_stake_skip_rate_percent = 0 ∧
    calculate_percentile [] (95/100) = 0 := by
  have h := C10_subset_statistics_zero (fun _ => 0) [ValidatorSkipRate.new "a" 10 5]
  refine ⟨(h.1 ?_).1, h.2.1 ?_, h.2.2 (95/100)⟩
  · intro v hv
    rw [List.mem_singleton] at hv
    subst hv
    decide
  · intro v hv
    rw [List.mem_singleton] at hv
    subst hv
    decide

/-! ## Claim C5: the two classifiers diverge at skip rate 5.0 -/

set_option maxHeartbeats 2000000 in
/-- C5: at the boundary rate of exactly 5.0 with enough slots, the aggregate
predicate `is_concerning` (strict `> 5`) is false while the per-record
classifier `from_skip_rate` (left-closed `>= 5`) yields `Concerning`; more
generally every per-record threshold is left-closed except the strict `> 0`
cut for `Excellent`, with `Insufficient` (fewer than 10 slots) taking
precedence over all rate buckets. -/
theorem C5_classifier_boundary_divergence :
    (∀ pk, (ValidatorSkipRate.new pk 100 95).is_concerning = false ∧
      ValidatorPerformanceCategory.from_skip_rate
        (ValidatorSkipRate.new pk 100 95).skip_rate_percent
        (ValidatorSkipRate.new pk 100 95).leader_slots =
        ValidatorPerformanceCategory.Concerning) ∧
    (∀ (r : ℚ) (n : ℕ), n < 10 →
      ValidatorPerformanceCategory.from_skip_rate r n =
        ValidatorPerformanceCategory.Insufficient) ∧
    (∀ (r : ℚ) (n : ℕ), 10 ≤ n →
      (ValidatorPerformanceCategory.from_skip_rate r n =
        ValidatorPerformanceCategory.Offline ↔ 100 ≤ r) ∧
      (ValidatorPerformanceCategory.from_skip_rate r n =
        ValidatorPerformanceCategory.Critical ↔ 25 ≤ r ∧ r < 100) ∧
      (ValidatorPerformanceCategory.from_skip_rate r n =
        ValidatorPerformanceCategory.Poor ↔ 10 ≤ r ∧ r < 25) ∧
      (ValidatorPerformanceCategory.from_skip_rate r n =
        ValidatorPerformanceCategory.Concerning ↔ 5 ≤ r ∧ r < 10) ∧
      (ValidatorPerformanceCategory.from_skip_rate r n =
        ValidatorPerformanceCategory.Average ↔ 3 ≤ r ∧ r < 5) ∧
      (ValidatorPerformanceCategory.from_skip_rate r n =
        ValidatorPerformanceCategory.Good ↔ 1 ≤ r ∧ r < 3) ∧
      (ValidatorPerformanceCategory.from_skip_rate r n =
        ValidatorPerformanceCategory.Excellent ↔ 0 < r ∧ r < 1) ∧
      (ValidatorPerformanceCategory.from_skip_rate r n =
        ValidatorPerformanceCategory.Perfect ↔ r ≤ 0)) := by
  refine ⟨?_, ?_, ?_⟩
  · intro pk
    have hrate : (ValidatorSkipRate.new pk 100 95).skip_rate_percent = 5 :=
      of_decide_eq_true (by with_unfolding_all rfl)
    constructor
    · simp [ValidatorSkipRate.is_concerning, hrate]
    · rw [hrate]
      show ValidatorPerformanceCategory.from_skip_rate 5 100 = _
      norm_num [ValidatorPerformanceCategory.from_skip_rate]
  · intro r n h
    simp [ValidatorPerformanceCategory.from_skip_rate, h]
  · intro r n h
    have h' : ¬ (n < 10) := by omega
    simp only [ValidatorPerformanceCategory.from_skip_rate, if_neg h']
    refine ⟨?_, ?_, ?_, ?_, ?_, ?_, ?_, ?_⟩ <;>
      (split_ifs with h1 h2 h3 h4 h5 h6 h7 <;>
        simp_all <;>
        first
          | (constructor <;> linarith)
          | (rintro ⟨a, b⟩; linarith)
          | (intro a; linarith)
          | linarith)

/-- C5 witness: the divergence at the concrete boundary record `(100, 95)`
(rate exactly 5.0) and the small-sample precedence at `(5, 5)`. -/
theorem C5_classifier_boundary_divergence_witness :
    (ValidatorSkipRate.new "v" 100 95).is_concerning = false ∧
    ValidatorPerformanceCategory.from_skip_rate 5 100 =
      ValidatorPerformanceCategory.Concerning ∧
    ValidatorPerformanceCategory.from_skip_rate 5 5 =
      ValidatorPerformanceCategory.Insufficient := by
  refine ⟨(C5_classifier_boundary_divergence.1 "v").1, ?_,
    C5_classifier_boundary_divergence.2.1 5 5 (by decide)⟩
  exact ((C5_classifier_boundary_divergence.2.2 5 100 (by decide)).2.2.2.1).mpr
    ⟨by norm_num, by norm_num⟩

/-! ## Claim C2, amended: what the bucket counts actually sum to -/

/-- The set of skip rates covered by some bucket of the source's table:
exactly `0`, the half-open interval `[0.0001, 99.9)`, or exactly `100`. -/
def coveredBySomeBucket (v : ValidatorSkipRate) : Bool :=
  decide (v.skip_rate_percent = 0 ∨
    (1/10000 ≤ v.skip_rate_percent ∧ v.skip_rate_percent < 999/10) ∨
    v.skip_rate_percent = 100)

theorem inBucket_eval_perfect (v : ValidatorSkipRate) :
    inBucket 0 0 "Perfect (0%)" v = decide (v.skip_rate_percent = 0) := by
  simp [inBucket]

theorem inBucket_eval_excellent (v : ValidatorSkipRate) :
    inBucket (1/10000) 1 "Excellent (0.1-1%)" v =
      decide (1/10000 ≤ v.skip_rate_percent ∧ v.skip_rate_percent < 1) := by
  simp [inBucket]

theorem inBucket_eval_good (v : ValidatorSkipRate) :
    inBucket 1 2 "Good (1-2%)" v =
      decide (1 ≤ v.skip_rate_percent ∧ v.skip_rate_percent < 2) := by
  simp [inBucket]

theorem inBucket_eval_average (v : ValidatorSkipRate) :
    inBucket 2 5 "Average (2-5%)" v =
      decide (2 ≤ v.skip_rate_percent ∧ v.skip_rate_percent < 5) := by
  simp [inBucket]

theorem inBucket_eval_concerning (v : ValidatorSkipRate) :
    inBucket 5 10 "Concerning (5-10%)" v =
      decide (5 ≤ v.skip_rate_percent ∧ v.skip_rate_percent < 10) := by
  simp [inBucket]

theorem inBucket_eval_poor (v : ValidatorSkipRate) :
    inBucket 10 25 "Poor (10-25%)" v =
      decide (10 ≤ v.skip_rate_percent ∧ v.skip_rate_percent < 25) := by
  simp [inBucket]

theorem inBucket_eval_critical (v : ValidatorSkipRate) :
    inBucket 25 50 "Critical (25-50%)" v =
      decide (25 ≤ v.skip_rate_percent ∧ v.skip_rate_percent < 50) := by
  simp [inBucket]

theorem inBucket_eval_failing (v : ValidatorSkipRate) :
    inBucket 50 (999/10) "Failing (50-99%)" v =
      decide (50 ≤ v.skip_rate_percent ∧ v.skip_rate_percent < 999/10) := by
  simp [inBucket]

theorem inBucket_eval_dead (v : ValidatorSkipRate) :
    inBucket 100 100 "Dead (100%)" v = decide (v.skip_rate_percent = 100) := by
  simp [inBucket]

/-- Pointwise: every rational skip rate satisfies exactly one bucket condition
when it is covered, and none otherwise. -/
theorem bucketIndicator_eq (r : ℚ) :
    (if r = 0 then (1:ℕ) else 0) +
    ((if 1/10000 ≤ r ∧ r < 1 then (1:ℕ) else 0) +
     ((if 1 ≤ r ∧ r < 2 then (1:ℕ) else 0) +
      ((if 2 ≤ r ∧ r < 5 then (1:ℕ) else 0) +
       ((if 5 ≤ r ∧ r < 10 then (1:ℕ) else 0) +
        ((if 10 ≤ r ∧ r < 25 then (1:ℕ) else 0) +
         ((if 25 ≤ r ∧ r < 50 then (1:ℕ) else 0) +
          ((if 50 ≤ r ∧ r < 999/10 then (1:ℕ) else 0) +
           (if r = 100 then (1:ℕ) else 0)))))))) =
    (if r = 0 ∨ (1/10000 ≤ r ∧ r < 999/10) ∨ r = 100 then (1:ℕ) else 0) := by
  rcases eq_or_ne r 0 with h0 | h0
  · subst h0; norm_num
  rcases eq_or_ne r 100 with h100 | h100
  · subst h100; norm_num
  rcases lt_or_le r (1/10000) with hr | hr
  · have c1 : ¬ (1/10000 ≤ r ∧ r < 1) := by rintro ⟨a, b⟩; linarith
    have c2 : ¬ (1 ≤ r ∧ r < 2) := by rintro ⟨a, b⟩; linarith
    have c3 : ¬ (2 ≤ r ∧ r < 5) := by rintro ⟨a, b⟩; linarith
    have c4 : ¬ (5 ≤ r ∧ r < 10) := by rintro ⟨a, b⟩; linarith
    have c5 : ¬ (10 ≤ r ∧ r < 25) := by rintro ⟨a, b⟩; linarith
    have c6 : ¬ (25 ≤ r ∧ r < 50) := by rintro ⟨a, b⟩; linarith
    have c7 : ¬ (50 ≤ r ∧ r < 999/10) := by rintro ⟨a, b⟩; linarith
    have ccov : ¬ (r = 0 ∨ (1/10000 ≤ r ∧ r < 999/10) ∨ r = 100) := by
      rintro (h | ⟨a, b⟩ | h)
      · exact h0 h
      · linarith
      · exact h100 h
    rw [if_neg h0, if_neg c1, if_neg c2, if_neg c3, if_neg c4, if_neg c5, if_neg c6, if_neg c7, if_neg h100, if_neg ccov]
  rcases lt_or_le r 1 with hs | hs
  · have c1 : 1/10000 ≤ r ∧ r < 1 := ⟨hr, hs⟩
    have c2 : ¬ (1 ≤ r ∧ r < 2) := by rintro ⟨a, b⟩; linarith
    have c3 : ¬ (2 ≤ r ∧ r < 5) := by rintro ⟨a, b⟩; linarith
    have c4 : ¬ (5 ≤ r ∧ r < 10) := by rintro ⟨a, b⟩; linarith
    have c5 : ¬ (10 ≤ r ∧ r < 25) := by rintro ⟨a, b⟩; linarith
    have c6 : ¬ (25 ≤ r ∧ r < 50) := by rintro ⟨a, b⟩; linarith
    have c7 : ¬ (50 ≤ r ∧ r < 999/10) := by rintro ⟨a, b⟩; linarith
    have ccov : r = 0 ∨ (1/10000 ≤ r ∧ r < 999/10) ∨ r = 100 :=
      Or.inr (Or.inl ⟨hr, by linarith⟩)
    rw [if_neg h0, if_pos c1, if_neg c2, if_neg c3, if_neg c4, if_neg c5, if_neg c6, if_neg c7, if_neg h100, if_pos ccov]
  rcases lt_or_le r 2 with hs2 | hs2
  · have c1 : ¬ (1/10000 ≤ r ∧ r < 1) := by rintro ⟨a, b⟩; linarith
    have c2 : 1 ≤ r ∧ r < 2 := ⟨hs, hs2⟩
    have c3 : ¬ (2 ≤ r ∧ r < 5) := by rintro ⟨a, b⟩; linarith
    have c4 : ¬ (5 ≤ r ∧ r < 10) := by rintro ⟨a, b⟩; linarith
    have c5 : ¬ (10 ≤ r ∧ r < 25) := by rintro ⟨a, b⟩; linarith
    have c6 : ¬ (25 ≤ r ∧ r < 50) := by rintro ⟨a, b⟩; linarith
    have c7 : ¬ (50 ≤ r ∧ r < 999/10) := by rintro ⟨a, b⟩; linarith
    have ccov : r = 0 ∨ (1/10000 ≤ r ∧ r < 999/10) ∨ r = 100 :=
      Or.inr (Or.inl ⟨by linarith, by linarith⟩)
    rw [if_neg h0, if_neg c1, if_pos c2, if_neg c3, if_neg c4, if_neg c5, if_neg c6, if_neg c7, if_neg h100, if_pos ccov]
  rcases lt_or_le r 5 with hs3 | hs3
  · have c1 : ¬ (1/10000 ≤ r ∧ r < 1) := by rintro ⟨a, b⟩; linarith
    have c2 : ¬ (1 ≤ r ∧ r < 2) := by rintro ⟨a, b⟩; linarith
    have c3 : 2 ≤ r ∧ r < 5 := ⟨hs2, hs3⟩
    have c4 : ¬ (5 ≤ r ∧ r < 10) := by rintro ⟨a, b⟩; linarith
    have c5 : ¬ (10 ≤ r ∧ r < 25) := by rintro ⟨a, b⟩; linarith
    have c6 : ¬ (25 ≤ r ∧ r < 50) := by rintro ⟨a, b⟩; linarith
    have c7 : ¬ (50 ≤ r ∧ r < 999/10) := by rintro ⟨a, b⟩; linarith
    have ccov : r = 0 ∨ (1/10000 ≤ r ∧ r < 999/10) ∨ r = 100 :=
      Or.inr (Or.inl ⟨by linarith, by linarith⟩)
    rw [if_neg h0, if_neg c1, if_neg c2, if_pos c3, if_neg c4, if_neg c5, if_neg c6, if_neg c7, if_neg h100, if_pos ccov]
  rcases lt_or_le r 10 with hs4 | hs4
  · have c1 : ¬ (1/10000 ≤ r ∧ r < 1) := by rintro ⟨a, b⟩; linarith
    have c2 : ¬ (1 ≤ r ∧ r < 2) := by rintro ⟨a, b⟩; linarith
    have c3 : ¬ (2 ≤ r ∧ r < 5) := by rintro ⟨a, b⟩; linarith
    have c4 : 5 ≤ r ∧ r < 10 := ⟨hs3, hs4⟩
    have c5 : ¬ (10 ≤ r ∧ r < 25) := by rintro ⟨a, b⟩; linarith
    have c6 : ¬ (25 ≤ r ∧ r < 50) := by rintro ⟨a, b⟩; linarith
    have c7 : ¬ (50 ≤ r ∧ r < 999/10) := by rintro ⟨a, b⟩; linarith
    have ccov : r = 0 ∨ (1/10000 ≤ r ∧ r < 999/10) ∨ r = 100 :=
      Or.inr (Or.inl ⟨by linarith, by linarith⟩)
    rw [if_neg h0, if_neg c1, if_neg c2, if_neg c3, if_pos c4, if_neg c5, if_neg c6, if_neg c7, if_neg h100, if_pos ccov]
  rcases lt_or_le r 25 with hs5 | hs5
  · have c1 : ¬ (1/10000 ≤ r ∧ r < 1) := by rintro ⟨a, b⟩; linarith
    have c2 : ¬ (1 ≤ r ∧ r < 2) := by rintro ⟨a, b⟩; linarith
    have c3 : ¬ (2 ≤ r ∧ r < 5) := by rintro ⟨a, b⟩; linarith
    have c4 : ¬ (5 ≤ r ∧ r < 10) := by rintro ⟨a, b⟩; linarith
    have c5 : 10 ≤ r ∧ r < 25 := ⟨hs4, hs5⟩
    have c6 : ¬ (25 ≤ r ∧ r < 50) := by rintro ⟨a, b⟩; linarith
    have c7 : ¬ (50 ≤ r ∧ r < 999/10) := by rintro ⟨a, b⟩; linarith
    have ccov : r = 0 ∨ (1/10000 ≤ r ∧ r < 999/10) ∨ r = 100 :=
      Or.inr (Or.inl ⟨by linarith, by linarith⟩)
    rw [if_neg h0, if_neg c1, if_neg c2, if_neg c3, if_neg c4, if_pos c5, if_neg c6, if_neg c7, if_neg h100, if_pos ccov]
  rcases lt_or_le r 50 with hs6 | hs6
  · have c1 : ¬ (1/10000 ≤ r ∧ r < 1) := by rintro ⟨a, b⟩; linarith
    have c2 : ¬ (1 ≤ r ∧ r < 2) := by rintro ⟨a, b⟩; linarith
    have c3 : ¬ (2 ≤ r ∧ r < 5) := by rintro ⟨a, b⟩; linarith
    have c4 : ¬ (5 ≤ r ∧ r < 10) := by rintro ⟨a, b⟩; linarith
    have c5 : ¬ (10 ≤ r ∧ r < 25) := by rintro ⟨a, b⟩; linarith
    have c6 : 25 ≤ r ∧ r < 50 := ⟨hs5, hs6⟩
    have c7 : ¬ (50 ≤ r ∧ r < 999/10) := by rintro ⟨a, b⟩; linarith
    have ccov : r = 0 ∨ (1/10000 ≤ r ∧ r < 999/10) ∨ r = 100 :=
      Or.inr (Or.inl ⟨by linarith, by linarith⟩)
    rw [if_neg h0, if_neg c1, if_neg c2, if_neg c3, if_neg c4, if_neg c5, if_pos c6, if_neg c7, if_neg h100, if_pos ccov]
  rcases lt_or_le r (999/10) with hs7 | hs7
  · have c1 : ¬ (1/10000 ≤ r ∧ r < 1) := by rintro ⟨a, b⟩; linarith
    have c2 : ¬ (1 ≤ r ∧ r < 2) := by rintro ⟨a, b⟩; linarith
    have c3 : ¬ (2 ≤ r ∧ r < 5) := by rintro ⟨a, b⟩; linarith
    have c4 : ¬ (5 ≤ r ∧ r < 10) := by rintro ⟨a, b⟩; linarith
    have c5 : ¬ (10 ≤ r ∧ r < 25) := by rintro ⟨a, b⟩; linarith
    have c6 : ¬ (25 ≤ r ∧ r < 50) := by rintro ⟨a, b⟩; linarith
    have c7 : 50 ≤ r ∧ r < 999/10 := ⟨hs6, hs7⟩
    have ccov : r = 0 ∨ (1/10000 ≤ r ∧ r < 999/10) ∨ r = 100 :=
      Or.inr (Or.inl ⟨by linarith, by linarith⟩)
    rw [if_neg h0, if_neg c1, if_neg c2, if_neg c3, if_neg c4, if_neg c5, if_neg c6, if_pos c7, if_neg h100, if_pos ccov]
  · have c1 : ¬ (1/10000 ≤ r ∧ r < 1) := by rintro ⟨a, b⟩; linarith
    have c2 : ¬ (1 ≤ r ∧ r < 2) := by rintro ⟨a, b⟩; linarith
    have c3 : ¬ (2 ≤ r ∧ r < 5) := by rintro ⟨a, b⟩; linarith
    have c4 : ¬ (5 ≤ r ∧ r < 10) := by rintro ⟨a, b⟩; linarith
    have c5 : ¬ (10 ≤ r ∧ r < 25) := by rintro ⟨a, b⟩; linarith
    have c6 : ¬ (25 ≤ r ∧ r < 50) := by rintro ⟨a, b⟩; linarith
    have c7 : ¬ (50 ≤ r ∧ r < 999/10) := by rintro ⟨a, b⟩; linarith
    have ccov : ¬ (r = 0 ∨ (1/10000 ≤ r ∧ r < 999/10) ∨ r = 100) := by
      rintro (h | ⟨a, b⟩ | h)
      · exact h0 h
      · linarith
      · exact h100 h
    rw [if_neg h0, if_neg c1, if_neg c2, if_neg c3, if_neg c4, if_neg c5, if_neg c6, if_neg c7, if_neg h100, if_neg ccov]

/-- The bucket indicators at one validator sum to its coverage indicator. -/
theorem bucket_indicator_sum (v : ValidatorSkipRate) :
    (if inBucket 0 0 "Perfect (0%)" v = true then (1:ℕ) else 0) +
    ((if inBucket (1/10000) 1 "Excellent (0.1-1%)" v = true then (1:ℕ) else 0) +
     ((if inBucket 1 2 "Good (1-2%)" v = true then (1:ℕ) else 0) +
      ((if inBucket 2 5 "Average (2-5%)" v = true then (1:ℕ) else 0) +
       ((if inBucket 5 10 "Concerning (5-10%)" v = true then (1:ℕ) else 0) +
        ((if inBucket 10 25 "Poor (10-25%)" v = true then (1:ℕ) else 0) +
         ((if inBucket 25 50 "Critical (25-50%)" v = true then (1:ℕ) else 0) +
          ((if inBucket 50 (999/10) "Failing (50-99%)" v = true then (1:ℕ) else 0) +
           (if inBucket 100 100 "Dead (100%)" v = true then (1:ℕ) else 0)))))))) =
    (if coveredBySomeBucket v = true then (1:ℕ) else 0) := by
  have h := bucketIndicator_eq v.skip_rate_percent
  simp only [inBucket_eval_perfect, inBucket_eval_excellent, inBucket_eval_good,
    inBucket_eval_average, inBucket_eval_concerning, inBucket_eval_poor,
    inBucket_eval_critical, inBucket_eval_failing, inBucket_eval_dead,
    coveredBySomeBucket, decide_eq_true_eq]
  omega

/-- C2 (amended): for every validator list, the bucket counts of
`calculate_distribution` sum to the number of validators whose skip rate lies
in `{0} ∪ [0.0001, 99.9) ∪ {100}`; the code's Excellent bucket is
`[0.0001, 1)` and its Failing bucket `[50, 99.9)`, so rates in `(0, 0.0001)`
or `[99.9, 100)` fall in no bucket and are not counted. -/
theorem C2_amended_bucket_count_sum (l : List ValidatorSkipRate) :
    ((calculate_distribution l).buckets.map (fun b => b.validator_count)).sum =
      l.countP coveredBySomeBucket := by
  simp only [calculate_distribution, bucketRanges, mkBucket, List.map_cons,
    List.map_nil, List.sum_cons, List.sum_nil]
  induction l with
  | nil => rfl
  | cons v t ih =>
      simp only [List.countP_cons]
      have h := bucket_indicator_sum v
      omega

end BlocksProduction
